import Mathlib

/-!
Verification development for the `tlaloc_commons` repository
(`src/tlaloc_commons/commons.py`).

The Python module is a thin synchronous client of a remote
infrastructure-provisioning API (CloudFormation).  We shallowly embed the
`_cloudformation` helper class and the `_object_to_dict` helper:

* the remote API is an explicit environment (`Env`) supplying the result of
  every remote call the code can make during one invocation;
* every method is a pure Lean function from the environment and its arguments
  to a result (`Except PyErr _`, mirroring Python exceptions) together with
  the ordered trace of remote calls and cleanup steps it issued
  (`List Action`);
* wall-clock time in `deploy_wait` is idealised exactly as the spec does:
  each `time.sleep(10)` advances elapsed time by 10 units and everything else
  is instantaneous.
-/

namespace TlalocCommons

/-! ## Status tables (commons.py lines 36-86), verbatim including duplicates -/

def in_progress_statuses : List String :=
  ["CREATE_IN_PROGRESS",
   "ROLLBACK_IN_PROGRESS",
   "DELETE_IN_PROGRESS",
   "UPDATE_IN_PROGRESS",
   "UPDATE_ROLLBACK_IN_PROGRESS",
   "REVIEW_IN_PROGRESS",
   "IMPORT_IN_PROGRESS",
   "IMPORT_ROLLBACK_IN_PROGRESS",
   "DELETE_IN_PROGRESS",
   "UPDATE_COMPLETE_CLEANUP_IN_PROGRESS"]

def completed_statuses : List String :=
  ["CREATE_COMPLETE",
   "DELETE_COMPLETE",
   "UPDATE_COMPLETE",
   "UPDATE_ROLLBACK_COMPLETE",
   "IMPORT_COMPLETE",
   "DELETE_COMPLETE",
   "ROLLBACK_COMPLETE",
   "IMPORT_ROLLBACK_COMPLETE"]

def failed_statuses : List String :=
  ["CREATE_FAILED",
   "ROLLBACK_FAILED",
   "DELETE_FAILED",
   "UPDATE_FAILED",
   "UPDATE_ROLLBACK_FAILED",
   "IMPORT_FAILED",
   "IMPORT_ROLLBACK_FAILED",
   "DELETE_FAILED"]

def rollback_statuses : List String :=
  ["ROLLBACK_COMPLETE",
   "UPDATE_ROLLBACK_COMPLETE",
   "IMPORT_ROLLBACK_COMPLETE"]

def special_cases : List String :=
  ["DELETE_IN_PROGRESS",
   "DELETE_COMPLETE",
   "DELETE_FAILED"]

def update_impossible_statuses : List String :=
  ["ROLLBACK_COMPLETE",
   "ROLLBACK_FAILED",
   "DELETE_FAILED",
   "UPDATE_ROLLBACK_FAILED",
   "IMPORT_ROLLBACK_FAILED",
   "DELETE_FAILED"]

/-! ## Python-side basic values -/

/-- Python exceptions the embedded code can raise. -/
inductive PyErr
  | valueError (msg : String)
  | keyError (key : String)
  | clientError (msg : String)
  | waiterError (msg : String)
deriving DecidableEq, Repr

/-- `str(e)` on a caught exception: the message the except-clauses inspect. -/
def errMessage : PyErr → String
  | .valueError m => m
  | .keyError k => k
  | .clientError m => m
  | .waiterError m => m

/-- `pat` is a prefix of the character list (Python `startswith` on lists). -/
def startsWithCL : List Char → List Char → Bool
  | [], _ => true
  | _ :: _, [] => false
  | a :: as, b :: bs => a == b && startsWithCL as bs

/-- `pat` occurs as a contiguous run inside the character list. -/
def containsCL (pat : List Char) : List Char → Bool
  | [] => startsWithCL pat []
  | b :: bs => startsWithCL pat (b :: bs) || containsCL pat bs

/-- Python `pat in s` on strings. -/
def strContains (s pat : String) : Bool := containsCL pat.toList s.toList

/-! ## The remote environment and the call trace -/

/-- Outcome of one `describe_stacks` call as `check_stack` sees it:
either a status string or a raised `ClientError` with a message. -/
inductive CheckResult
  | status (s : String)
  | clientError (msg : String)
deriving DecidableEq, Repr

/-- One invocation's view of the remote API.  `checks` gives the result of
the n-th status describe issued during the invocation; the remaining fields
give the result of each other remote call (each is issued at most once per
invocation).  `outputs` is the `Outputs` list of the stack description used
by `get_output`. -/
structure Env where
  checks : Nat → CheckResult
  createStackRes : Except String Unit
  deleteStackRes : Except String Unit
  createChangeSetRes : Except String String
  describeChangeSetRes : Except String (String × String)
  deleteChangeSetRes : Except String Unit
  csWaiterRes : Except String Unit
  executeRes : Except String Unit
  updateWaiterRes : Except String Unit
  outputs : List (String × String)

/-- Remote calls and cleanup steps, in the order the code performs them. -/
inductive Action
  | describeStacks (name : String)
  | createStack (name url : String) (caps params tags : List String)
  | deleteStack (name : String)
  | createChangeSetURL (name url : String) (caps params tags : List String) (csName : String)
  | createChangeSetBody (name body : String) (caps params tags : List String) (csName : String)
  | describeChangeSet (name csName : String)
  | deleteChangeSet (name csName : String)
  | waiterWait (waiter : String) (delay maxAttempts : Nat)
  | executeChangeSet (stackName : Option String) (csName : String)
  | sleep (n : Nat)
  | closeClient
  | delSession
  | delSessionWait
deriving DecidableEq, Repr

/-- The three stack-level mutations the spec's invariant speaks about. -/
inductive MutKind
  | create
  | delete
  | execute
deriving DecidableEq, Repr

def mutKindOf : Action → Option MutKind
  | .createStack _ _ _ _ _ => some .create
  | .deleteStack _ => some .delete
  | .executeChangeSet _ _ => some .execute
  | _ => none

/-- Stack-level mutations performed by a trace, in order. -/
def mutationsOf (tr : List Action) : List MutKind := tr.filterMap mutKindOf

def isDescribe : Action → Bool
  | .describeStacks _ => true
  | _ => false

/-- Number of synchronous describe calls in a trace. -/
def describeCount (tr : List Action) : Nat := (tr.filter isDescribe).length

/-! ## The deployment request (`config["config"]` as `deploy` reads it) -/

/-- The keys of the flattened config mapping that `deploy` / `get_output` /
`deploy_wait` read.  `aws_template_file` and `aws_template_body` are the two
optional template-source keys tested with `in`; reading an absent key raises
`KeyError`. -/
structure Config where
  aws_profile : String
  aws_region : String
  aws_stack : String
  aws_bucket : String
  aws_folder : String
  aws_template_file : Option String
  aws_template_body : Option String
  timestamp : String
deriving DecidableEq, Repr

/-- The S3 template URL assembled by the f-string at lines 130/152/162. -/
def mkTemplateURL (bucket folder file : String) : String :=
  "https://" ++ bucket ++ ".s3.amazonaws.com/" ++ folder ++ "/" ++ file

/-- The exact no-changes `StatusReason` compared with `==` at line 178. -/
def noChangesMsg : String :=
  "The submitted information didn\x27t contain changes. Submit different information to create a change set."

/-! ## check_stack (lines 423-441) -/

/-- `check_stack`: returns the status, or `"DOES_NOT_EXIST"` when the
describe call raised a `ClientError` whose message contains
`"does not exist"`; any other `ClientError` propagates. -/
def check_stack (r : CheckResult) : Except PyErr String :=
  match r with
  | .status s => .ok s
  | .clientError msg =>
    if strContains msg "does not exist" then .ok "DOES_NOT_EXIST"
    else .error (.clientError msg)

/-! ## deploy_wait (lines 375-421) -/

/-- Report printed by `deploy_wait` (lines 395, 409, 411, 413). -/
inductive WaitReport
  | doesNotExist
  | successful
  | failed
  | timedOut
deriving DecidableEq, Repr

/-- The inner poll loop of `deploy_wait` (lines 400-405): while the status is
in progress and elapsed wall-clock time is below the timeout, sleep 10 units
and re-check.  `idx` indexes the environment's describe results; elapsed time
is 10 units per completed sleep. -/
def waitPoll (env : Env) (stack : String) (timeout : Nat) :
    (status : String) → (elapsed idx : Nat) → Except PyErr String × Nat × List Action
  | status, elapsed, idx =>
    if h : status ∈ in_progress_statuses ∧ elapsed < timeout then
      match check_stack (env.checks idx) with
      | .error e => (.error e, idx + 1, [.sleep 10, .describeStacks stack])
      | .ok s' =>
        let rest := waitPoll env stack timeout s' (elapsed + 10) (idx + 1)
        (rest.1, rest.2.1, .sleep 10 :: .describeStacks stack :: rest.2.2)
    else
      (.ok status, idx, [])
termination_by _ elapsed _ => timeout - elapsed
decreasing_by exact Nat.sub_lt_sub_left h.2 (by omega)

/-- `deploy_wait`: check existence, poll while in progress or until timeout,
report the outcome, close the client and delete the wait session.  A raised
`ClientError` from a describe propagates and skips the cleanup.  Returns the
report, the next describe index, and the trace. -/
def deploy_wait (env : Env) (stack : String) (timeout idx : Nat) :
    Except PyErr WaitReport × Nat × List Action :=
  match check_stack (env.checks idx) with
  | .error e => (.error e, idx + 1, [.describeStacks stack])
  | .ok status =>
    if status = "DOES_NOT_EXIST" then
      (.ok .doesNotExist, idx + 1, [.describeStacks stack, .closeClient, .delSessionWait])
    else
      match waitPoll env stack timeout status 0 (idx + 1) with
      | (.error e, idx', tr) => (.error e, idx', .describeStacks stack :: tr)
      | (.ok final, idx', tr) =>
        let report :=
          if final ∈ completed_statuses ∨ final = "DOES_NOT_EXIST" then WaitReport.successful
          else if final ∈ failed_statuses then WaitReport.failed
          else WaitReport.timedOut
        (.ok report, idx', (.describeStacks stack :: tr) ++ [.closeClient, .delSessionWait])

/-! ## deploy (lines 88-304) -/

/-- How the `try` block of the completed-status branch ended: the early
`return` at line 185, normal completion, or a raised exception (to be
inspected by the `except` clause). -/
inductive TryOut
  | earlyReturn
  | completed
  | raised (e : PyErr)
deriving DecidableEq, Repr

/-- The `try` block of the completed-status branch when a template file is
given (lines 158-218): create the change set (by URL), describe it, handle
the FAILED/no-changes case (delete the change set and return early), else
wait, execute, wait again and re-check the stack.  `idx` is the index of the
next describe result in the environment. -/
def tryFileUpdate (env : Env) (stack url : String) (caps params tags : List String)
    (timestamp : String) (idx : Nat) : TryOut × List Action :=
  let csName := "ChangeSet" ++ timestamp
  let a1 := Action.createChangeSetURL stack url caps params tags csName
  match env.createChangeSetRes with
  | .error m => (.raised (.clientError m), [a1])
  | .ok _ =>
    let a2 := Action.describeChangeSet stack csName
    match env.describeChangeSetRes with
    | .error m => (.raised (.clientError m), [a1, a2])
    | .ok (st, reason) =>
      if st = "FAILED" then
        if reason = noChangesMsg then
          match env.deleteChangeSetRes with
          | .error m => (.raised (.clientError m), [a1, a2, .deleteChangeSet stack csName])
          | .ok _ => (.earlyReturn, [a1, a2, .deleteChangeSet stack csName])
        else
          (.raised (.valueError ("Failed to create change set: " ++ reason)), [a1, a2])
      else
        let a3 := Action.waiterWait "change_set_create_complete" 10 30
        match env.csWaiterRes with
        | .error m => (.raised (.waiterError m), [a1, a2, a3])
        | .ok _ =>
          let a4 := Action.executeChangeSet (some stack) csName
          match env.executeRes with
          | .error m => (.raised (.clientError m), [a1, a2, a3, a4])
          | .ok _ =>
            let a5 := Action.waiterWait "stack_update_complete" 10 30
            match env.updateWaiterRes with
            | .error m => (.raised (.waiterError m), [a1, a2, a3, a4, a5])
            | .ok _ =>
              let a6 := Action.describeStacks stack
              match check_stack (env.checks idx) with
              | .error e => (.raised e, [a1, a2, a3, a4, a5, a6])
              | .ok _ => (.completed, [a1, a2, a3, a4, a5, a6])

/-- The `try` block of the completed-status branch when an inline template
body is given (lines 254-292): create the change set (by body), wait,
execute (without a stack name), wait again, re-check.  Unlike the file
branch there is no describe/no-changes detection and no change-set
deletion. -/
def tryBodyUpdate (env : Env) (stack body : String) (caps params tags : List String)
    (timestamp : String) (idx : Nat) : TryOut × List Action :=
  let csName := timestamp ++ "-change-set"
  let a1 := Action.createChangeSetBody stack body caps params tags csName
  match env.createChangeSetRes with
  | .error m => (.raised (.clientError m), [a1])
  | .ok _ =>
    let a3 := Action.waiterWait "change_set_create_complete" 10 30
    match env.csWaiterRes with
    | .error m => (.raised (.waiterError m), [a1, a3])
    | .ok _ =>
      let a4 := Action.executeChangeSet none csName
      match env.executeRes with
      | .error m => (.raised (.clientError m), [a1, a3, a4])
      | .ok _ =>
        let a5 := Action.waiterWait "stack_update_complete" 10 30
        match env.updateWaiterRes with
        | .error m => (.raised (.waiterError m), [a1, a3, a4, a5])
        | .ok _ =>
          let a6 := Action.describeStacks stack
          match check_stack (env.checks idx) with
          | .error e => (.raised e, [a1, a3, a4, a5, a6])
          | .ok _ => (.completed, [a1, a3, a4, a5, a6])

/-- How a `deploy` invocation ended without raising: the early `return` of
the no-changes case (line 185), or reaching the end of the method body. -/
inductive DeployOk
  | noUpdates
  | done
deriving DecidableEq, Repr

deriving instance DecidableEq for Except

structure DeployOut where
  result : Except PyErr DeployOk
  trace : List Action
deriving DecidableEq, Repr

/-- The failed/update-impossible handling shared shape (lines 141-156 and
237-252): delete the stack, wait, re-check; raise the fatal error when the
stack still exists, otherwise attempt the create call.  `create` is what the
branch then does (it differs between the file and body branches). -/
def handleFailed (env : Env) (stack : String) (create : DeployOut) : DeployOut :=
  match env.deleteStackRes with
  | .error m => ⟨.error (.clientError m), [.describeStacks stack, .deleteStack stack]⟩
  | .ok _ =>
    match deploy_wait env stack 600 1 with
    | (.error e, _, wtr) =>
      ⟨.error e, [.describeStacks stack, .deleteStack stack] ++ wtr⟩
    | (.ok _, idx, wtr) =>
      let pre := [Action.describeStacks stack, Action.deleteStack stack] ++ wtr
        ++ [Action.describeStacks stack]
      match check_stack (env.checks idx) with
      | .error e => ⟨.error e, pre⟩
      | .ok st2 =>
        if st2 ≠ "DOES_NOT_EXIST" then
          ⟨.error (.valueError "Failed to delete stack, cannot continue"), pre⟩
        else
          ⟨create.result, pre ++ create.trace⟩

/-- The `except` clause of the completed-status branches (lines 219-223 and
293-297) wrapped around a finished `try` block, followed by the cleanup at
lines 302-304 when the body completes: a raised exception whose message
contains "No updates are to be performed" is swallowed; the early `return`
skips the cleanup. -/
def finishUpdate (stack : String) (out : TryOut × List Action) : DeployOut :=
  match out with
  | (.earlyReturn, tr) => ⟨.ok .noUpdates, .describeStacks stack :: tr⟩
  | (.completed, tr) =>
    ⟨.ok .done, .describeStacks stack :: tr ++ [.closeClient, .delSession]⟩
  | (.raised e, tr) =>
    if strContains (errMessage e) "No updates are to be performed" then
      ⟨.ok .done, .describeStacks stack :: tr ++ [.closeClient, .delSession]⟩
    else
      ⟨.error e, .describeStacks stack :: tr⟩

/-- The create_stack call of the template-file branch (lines 128-134 and
150-156) together with, on success, reaching the cleanup at the end of the
deploy body. -/
def createStackCall (env : Env) (stack url : String) (caps params tags : List String) :
    DeployOut :=
  match env.createStackRes with
  | .error m => ⟨.error (.clientError m), [.createStack stack url caps params tags]⟩
  | .ok _ => ⟨.ok .done, [.createStack stack url caps params tags, .closeClient, .delSession]⟩

/-- The create_stack call of the template-body branch (lines 227-233 and
246-252): its TemplateURL f-string reads the absent `aws_template_file`
key, so `KeyError` is raised before any call is issued. -/
def createStackKeyError : DeployOut := ⟨.error (.keyError "aws_template_file"), []⟩

/-- `deploy` (lines 88-304).  Checks the stack status, then branches on
which template key the config carries, then on the classified status.  Note
that in the `aws_template_body` branch the create-stack calls still build
their `TemplateURL` from `config["config"]["aws_template_file"]`, a key that
is absent in that branch, so evaluating the f-string raises `KeyError`
before the call is issued. -/
def deploy (env : Env) (cfg : Config) (caps params tags : List String) : DeployOut :=
  let stack := cfg.aws_stack
  match check_stack (env.checks 0) with
  | .error e => ⟨.error e, [.describeStacks stack]⟩
  | .ok st =>
    match cfg.aws_template_file with
    | some file =>
      let url := mkTemplateURL cfg.aws_bucket cfg.aws_folder file
      let createOut : DeployOut := createStackCall env stack url caps params tags
      if st = "DOES_NOT_EXIST" then
        ⟨createOut.result, .describeStacks stack :: createOut.trace⟩
      else if st ∈ in_progress_statuses then
        ⟨.error (.valueError "Stack is in progress"), [.describeStacks stack]⟩
      else if st ∈ failed_statuses ∨ st ∈ update_impossible_statuses then
        handleFailed env stack createOut
      else if st ∈ completed_statuses then
        finishUpdate stack (tryFileUpdate env stack url caps params tags cfg.timestamp 1)
      else
        ⟨.ok .done, [.describeStacks stack, .closeClient, .delSession]⟩
    | none =>
      match cfg.aws_template_body with
      | some body =>
        let createOut : DeployOut := createStackKeyError
        if st = "DOES_NOT_EXIST" then
          ⟨createOut.result, .describeStacks stack :: createOut.trace⟩
        else if st ∈ in_progress_statuses then
          ⟨.error (.valueError "Stack is in progress"), [.describeStacks stack]⟩
        else if st ∈ failed_statuses then
          handleFailed env stack createOut
        else if st ∈ completed_statuses then
          finishUpdate stack (tryBodyUpdate env stack body caps params tags cfg.timestamp 1)
        else
          ⟨.ok .done, [.describeStacks stack, .closeClient, .delSession]⟩
      | none =>
        ⟨.error (.valueError "No template provided"), [.describeStacks stack]⟩

/-! ## get_output (lines 306-373) -/

/-- `get_output`: check status once; when the status is completed (and not
failed / nonexistent) fetch the outputs with one more describe and find the
first matching key; close the client and delete the session; then raise the
invalid-state or not-found error, or return the value. -/
def get_output (env : Env) (cfg : Config) (output_name : String) :
    Except PyErr String × List Action :=
  let stack := cfg.aws_stack
  match check_stack (env.checks 0) with
  | .error e => (.error e, [.describeStacks stack])
  | .ok status =>
    if status = "DOES_NOT_EXIST" ∨ status ∉ completed_statuses ∨ status ∈ failed_statuses then
      (.error (.valueError ("Stack is not in a valid state: " ++ status)),
       [.describeStacks stack, .closeClient, .delSession])
    else
      let value := (env.outputs.find? (fun p => p.1 == output_name)).map (·.2)
      let tr := [Action.describeStacks stack, Action.describeStacks stack,
                 Action.closeClient, Action.delSession]
      match value with
      | none => (.error (.valueError ("Output " ++ output_name ++ " not found")), tr)
      | some v => (.ok v, tr)

/-! ## _object_to_dict (lines 9-21) -/

/-- A node of the Python object graph: an object with `__dict__`, a list, a
dict, or an atom.  References are heap addresses, so cyclic graphs are
representable. -/
inductive PyNode
  | objN (fields : List (String × Nat))
  | listN (items : List Nat)
  | dictN (entries : List (String × Nat))
  | atomN
deriving DecidableEq, Repr

/-- Result of `_object_to_dict`: freshly built dicts and lists, with `raw r`
standing for an original object returned unchanged (the `level > 10` cap and
the atom case). -/
inductive PyOut
  | dict (entries : List (String × PyOut))
  | list (items : List PyOut)
  | raw (r : Nat)

mutual

/-- `_object_to_dict(obj, level)` over a heap of nodes: above nesting level
10 the value is returned unchanged; otherwise objects and dicts become dicts
and lists become lists, recursing at `level + 1`. -/
def object_to_dict (heap : Nat → PyNode) (r : Nat) (level : Nat) : PyOut :=
  if level > 10 then .raw r
  else
    match heap r with
    | .objN fields => .dict (otdPairs heap fields (level + 1))
    | .listN items => .list (otdItems heap items (level + 1))
    | .dictN entries => .dict (otdPairs heap entries (level + 1))
    | .atomN => .raw r
termination_by (11 - level, 0)

def otdPairs (heap : Nat → PyNode) (fields : List (String × Nat)) (level : Nat) :
    List (String × PyOut) :=
  match fields with
  | [] => []
  | (k, v) :: rest => (k, object_to_dict heap v level) :: otdPairs heap rest level
termination_by (11 - level, fields.length + 1)

def otdItems (heap : Nat → PyNode) (items : List Nat) (level : Nat) : List PyOut :=
  match items with
  | [] => []
  | v :: rest => object_to_dict heap v level :: otdItems heap rest level
termination_by (11 - level, items.length + 1)

end

/-- A cyclic heap: address 0 is a list whose single element is address 0. -/
def cycHeap : Nat → PyNode := fun _ => .listN [0]

/-! ## Concrete fixtures used by witnesses and counterexamples -/

def cfgFile : Config :=
  { aws_profile := "prof", aws_region := "us-east-1", aws_stack := "mystack",
    aws_bucket := "bkt", aws_folder := "fld",
    aws_template_file := some "template.yaml", aws_template_body := none,
    timestamp := "1700" }

def cfgBody : Config :=
  { cfgFile with aws_template_file := none, aws_template_body := some "templatebody" }

/-- The template URL `deploy` assembles for `cfgFile`. -/
def urlFile : String := mkTemplateURL "bkt" "fld" "template.yaml"

/-- Message of the `ClientError` a describe raises for a missing stack. -/
def dneMsg : String := "Stack with id mystack does not exist"

def baseEnv : Env :=
  { checks := fun _ => .clientError dneMsg,
    createStackRes := .ok (),
    deleteStackRes := .ok (),
    createChangeSetRes := .ok "csid",
    describeChangeSetRes := .ok ("CREATE_COMPLETE", ""),
    deleteChangeSetRes := .ok (),
    csWaiterRes := .ok (),
    executeRes := .ok (),
    updateWaiterRes := .ok (),
    outputs := [] }

/-- Every describe reports an in-progress status. -/
def envInProgress : Env := { baseEnv with checks := fun _ => .status "CREATE_IN_PROGRESS" }

/-- First describe reports CREATE_FAILED; afterwards the stack is gone. -/
def envFailedThenGone : Env :=
  { baseEnv with checks := fun n => if n = 0 then .status "CREATE_FAILED" else .clientError dneMsg }

/-- First describe reports ROLLBACK_COMPLETE; afterwards the stack is gone. -/
def envRollback : Env :=
  { baseEnv with checks := fun n =>
      if n = 0 then .status "ROLLBACK_COMPLETE" else .clientError dneMsg }

/-- A completed stack whose change set reports no differences. -/
def envNoDiff : Env :=
  { baseEnv with
      checks := fun _ => .status "UPDATE_COMPLETE"
      describeChangeSetRes := .ok ("FAILED", noChangesMsg) }

/-- A completed stack, an empty diff, and the change-set waiter failing the
way it does on a FAILED change set (a message without the update-path
no-updates phrase). -/
def envBodyNoDiff : Env :=
  { baseEnv with
      checks := fun _ => .status "UPDATE_COMPLETE"
      describeChangeSetRes := .ok ("FAILED", noChangesMsg)
      csWaiterRes := .error "Waiter ChangeSetCreateComplete failed: terminal failure state" }

/-- A completed stack exposing one output. -/
def envOutputs : Env :=
  { baseEnv with
      checks := fun _ => .status "CREATE_COMPLETE"
      outputs := [("Url", "https://x")] }



/-! ## Status-table facts used by several proofs -/

theorem in_progress_ne_dne : ∀ s ∈ in_progress_statuses, s ≠ "DOES_NOT_EXIST" := by decide

theorem completed_not_in_progress : ∀ s ∈ completed_statuses, s ∉ in_progress_statuses := by
  decide

theorem completed_not_failed : ∀ s ∈ completed_statuses, s ∉ failed_statuses := by decide

theorem completed_ne_dne : ∀ s ∈ completed_statuses, s ≠ "DOES_NOT_EXIST" := by decide

/-! ## Trace-shape lemmas for the wait loop -/

theorem waitPoll_trace_mem (env : Env) (stack : String) (timeout : Nat)
    (status : String) (elapsed idx : Nat) :
    ∀ a ∈ (waitPoll env stack timeout status elapsed idx).2.2,
      a = Action.sleep 10 ∨ a = Action.describeStacks stack := by
  induction status, elapsed, idx using waitPoll.induct env stack timeout with
  | case1 status elapsed idx h e heq =>
    intro a ha
    rw [waitPoll] at ha
    simp only [dif_pos h, heq] at ha
    simp at ha
    rcases ha with rfl | rfl
    · exact Or.inl rfl
    · exact Or.inr rfl
  | case2 status elapsed idx h s' heq ih =>
    intro a ha
    rw [waitPoll] at ha
    simp only [dif_pos h, heq] at ha
    simp at ha
    rcases ha with rfl | rfl | ha
    · exact Or.inl rfl
    · exact Or.inr rfl
    · exact ih a ha
  | case3 status elapsed idx h =>
    intro a ha
    rw [waitPoll] at ha
    simp only [dif_neg h] at ha
    simp at ha

theorem deploy_wait_trace_mem (env : Env) (stack : String) (timeout idx : Nat) :
    ∀ a ∈ (deploy_wait env stack timeout idx).2.2,
      a = Action.sleep 10 ∨ a = Action.describeStacks stack ∨
      a = Action.closeClient ∨ a = Action.delSessionWait := by
  intro a ha
  unfold deploy_wait at ha
  cases hc : check_stack (env.checks idx) with
  | error e => rw [hc] at ha; simp at ha; simp [ha]
  | ok status =>
    rw [hc] at ha
    by_cases hd : status = "DOES_NOT_EXIST"
    · simp [hd] at ha
      rcases ha with rfl | rfl | rfl <;> simp
    · simp only [if_neg hd] at ha
      rcases hw : waitPoll env stack timeout status 0 (idx + 1) with ⟨res, idx', tr⟩
      have hmem := waitPoll_trace_mem env stack timeout status 0 (idx + 1)
      rw [hw] at hmem
      rw [hw] at ha
      cases res with
      | error e =>
        simp at ha
        rcases ha with rfl | ha
        · simp
        · rcases hmem a ha with rfl | rfl <;> simp
      | ok final =>
        simp at ha
        rcases ha with rfl | ha | rfl | rfl
        · simp
        · rcases hmem a ha with rfl | rfl <;> simp
        · simp
        · simp

theorem deploy_wait_mut_nil (env : Env) (stack : String) (timeout idx : Nat) :
    mutationsOf (deploy_wait env stack timeout idx).2.2 = [] := by
  rw [mutationsOf, List.filterMap_eq_nil_iff]
  intro a ha
  rcases deploy_wait_trace_mem env stack timeout idx a ha with rfl | rfl | rfl | rfl <;> rfl

theorem deploy_wait_no_delSession (env : Env) (stack : String) (timeout idx : Nat) :
    Action.delSession ∉ (deploy_wait env stack timeout idx).2.2 := by
  intro h
  rcases deploy_wait_trace_mem env stack timeout idx _ h with h' | h' | h' | h' <;> simp at h'

/-! ## Trace-shape lemmas for the change-set try blocks -/

theorem tryFileUpdate_trace (env : Env) (stack url : String) (caps params tags : List String)
    (timestamp : String) (idx : Nat) :
    (mutationsOf (tryFileUpdate env stack url caps params tags timestamp idx).2 = [] ∨
      mutationsOf (tryFileUpdate env stack url caps params tags timestamp idx).2 =
        [MutKind.execute]) ∧
    Action.delSession ∉ (tryFileUpdate env stack url caps params tags timestamp idx).2 := by
  unfold tryFileUpdate
  cases env.createChangeSetRes with
  | error m => simp [mutationsOf, mutKindOf]
  | ok cid =>
    cases env.describeChangeSetRes with
    | error m => simp [mutationsOf, mutKindOf]
    | ok pr =>
      obtain ⟨st, reason⟩ := pr
      by_cases hst : st = "FAILED"
      · simp only [hst, if_pos rfl]
        by_cases hr : reason = noChangesMsg
        · simp only [if_pos hr]
          cases env.deleteChangeSetRes with
          | error m => simp [mutationsOf, mutKindOf]
          | ok u => simp [mutationsOf, mutKindOf]
        · simp [hr, mutationsOf, mutKindOf]
      · simp only [if_neg hst]
        cases env.csWaiterRes with
        | error m => simp [hst, mutationsOf, mutKindOf]
        | ok u =>
          cases env.executeRes with
          | error m => simp [hst, mutationsOf, mutKindOf]
          | ok u2 =>
            cases env.updateWaiterRes with
            | error m => simp [hst, mutationsOf, mutKindOf]
            | ok u3 =>
              cases check_stack (env.checks idx) with
              | error e => simp [hst, mutationsOf, mutKindOf]
              | ok s2 => simp [hst, mutationsOf, mutKindOf]

theorem tryBodyUpdate_trace (env : Env) (stack body : String) (caps params tags : List String)
    (timestamp : String) (idx : Nat) :
    (mutationsOf (tryBodyUpdate env stack body caps params tags timestamp idx).2 = [] ∨
      mutationsOf (tryBodyUpdate env stack body caps params tags timestamp idx).2 =
        [MutKind.execute]) ∧
    Action.delSession ∉ (tryBodyUpdate env stack body caps params tags timestamp idx).2 := by
  unfold tryBodyUpdate
  cases env.createChangeSetRes with
  | error m => simp [mutationsOf, mutKindOf]
  | ok cid =>
    cases env.csWaiterRes with
    | error m => simp [mutationsOf, mutKindOf]
    | ok u =>
      cases env.executeRes with
      | error m => simp [mutationsOf, mutKindOf]
      | ok u2 =>
        cases env.updateWaiterRes with
        | error m => simp [mutationsOf, mutKindOf]
        | ok u3 =>
          cases check_stack (env.checks idx) with
          | error e => simp [mutationsOf, mutKindOf]
          | ok s2 => simp [mutationsOf, mutKindOf]

/-! ## Lemmas about finishUpdate and handleFailed -/

theorem finishUpdate_mut (stack : String) (out : TryOut × List Action) :
    mutationsOf (finishUpdate stack out).trace = mutationsOf out.2 := by
  obtain ⟨o, tr⟩ := out
  cases o with
  | earlyReturn => simp [finishUpdate, mutationsOf, mutKindOf]
  | completed => simp [finishUpdate, mutationsOf, mutKindOf]
  | raised e =>
    by_cases h : strContains (errMessage e) "No updates are to be performed" = true
    · simp [finishUpdate, h, mutationsOf, mutKindOf]
    · simp [finishUpdate, h, mutationsOf, mutKindOf]

theorem finishUpdate_delSession (stack : String) (out : TryOut × List Action)
    (hout : Action.delSession ∉ out.2) :
    (Action.delSession ∈ (finishUpdate stack out).trace ↔
      (finishUpdate stack out).result = .ok .done) := by
  obtain ⟨o, tr⟩ := out
  cases o with
  | earlyReturn => simp [finishUpdate]; intro h; exact hout h
  | completed => simp [finishUpdate]
  | raised e =>
    by_cases h : strContains (errMessage e) "No updates are to be performed" = true
    · simp [finishUpdate, h]
    · simp [finishUpdate, h]; intro hmem; exact hout hmem

theorem handleFailed_mut (env : Env) (stack : String) (d : DeployOut) :
    mutationsOf (handleFailed env stack d).trace = [MutKind.delete] ∨
    mutationsOf (handleFailed env stack d).trace = MutKind.delete :: mutationsOf d.trace := by
  unfold handleFailed
  cases env.deleteStackRes with
  | error m => left; simp [mutationsOf, mutKindOf]
  | ok u =>
    rcases hw : deploy_wait env stack 600 1 with ⟨res, widx, wtr⟩
    have hmut : List.filterMap mutKindOf wtr = [] := by
      have h0 := deploy_wait_mut_nil env stack 600 1
      rw [hw] at h0
      simpa [mutationsOf] using h0
    cases res with
    | error e =>
      left
      simp [mutationsOf, mutKindOf, List.filterMap_append, hmut]
    | ok r =>
      cases hcs : check_stack (env.checks widx) with
      | error e =>
        left
        simp [hcs, mutationsOf, mutKindOf, List.filterMap_append, hmut]
      | ok st2 =>
        by_cases h2 : st2 = "DOES_NOT_EXIST"
        · right
          simp [hcs, h2, mutationsOf, mutKindOf, List.filterMap_append, hmut]
        · left
          simp [hcs, h2, mutationsOf, mutKindOf, List.filterMap_append, hmut]

theorem handleFailed_delSession (env : Env) (stack : String) (d : DeployOut)
    (hd : Action.delSession ∈ d.trace ↔ d.result = .ok .done) :
    (Action.delSession ∈ (handleFailed env stack d).trace ↔
      (handleFailed env stack d).result = .ok .done) := by
  unfold handleFailed
  cases env.deleteStackRes with
  | error m => simp
  | ok u =>
    rcases hw : deploy_wait env stack 600 1 with ⟨res, widx, wtr⟩
    have hnse : Action.delSession ∉ wtr := by
      have h0 := deploy_wait_no_delSession env stack 600 1
      rw [hw] at h0
      exact h0
    cases res with
    | error e => simp [hnse]
    | ok r =>
      cases hcs : check_stack (env.checks widx) with
      | error e => simp [hcs, hnse]
      | ok st2 =>
        by_cases h2 : st2 = "DOES_NOT_EXIST"
        · simp [hcs, h2, hnse, hd]
        · simp [hcs, h2, hnse]

/-! ## Lemmas about the create-call outcomes -/

theorem createStackCall_mut (env : Env) (stack url : String) (caps params tags : List String) :
    mutationsOf (createStackCall env stack url caps params tags).trace = [MutKind.create] := by
  cases h : env.createStackRes <;> simp [createStackCall, h, mutationsOf, mutKindOf]

theorem createStackCall_delSession (env : Env) (stack url : String)
    (caps params tags : List String) :
    (Action.delSession ∈ (createStackCall env stack url caps params tags).trace ↔
      (createStackCall env stack url caps params tags).result = .ok .done) := by
  cases h : env.createStackRes <;> simp [createStackCall, h]

theorem mutationsOf_nil : mutationsOf [] = [] := rfl

theorem mutationsOf_cons (a : Action) (l : List Action) :
    mutationsOf (a :: l) = (mutKindOf a).toList ++ mutationsOf l := by
  cases h : mutKindOf a <;> simp [mutationsOf, List.filterMap_cons, h]

theorem mutationsOf_append (l1 l2 : List Action) :
    mutationsOf (l1 ++ l2) = mutationsOf l1 ++ mutationsOf l2 := by
  simp [mutationsOf, List.filterMap_append]

/-! ## Claim theorems -/

/-- C1: for every deployment request (one carrying a template source) whose
stack status is in the in-progress category, `deploy` fails with the
"Stack is in progress" `ValueError` after the single status describe,
issuing no create, change-set, update or delete call and not retrying. -/
theorem deploy_in_progress_no_mutation (env : Env) (cfg : Config)
    (caps params tags : List String) (s : String)
    (hc : env.checks 0 = .status s) (hs : s ∈ in_progress_statuses)
    (ht : cfg.aws_template_file.isSome = true ∨ cfg.aws_template_body.isSome = true) :
    deploy env cfg caps params tags =
      ⟨.error (.valueError "Stack is in progress"), [.describeStacks cfg.aws_stack]⟩ := by
  have hdne : s ≠ "DOES_NOT_EXIST" := in_progress_ne_dne s hs
  unfold deploy
  rw [hc]
  simp only [check_stack]
  cases hf : cfg.aws_template_file with
  | some file => simp [hdne, hs]
  | none =>
    cases hb : cfg.aws_template_body with
    | some body => simp [hdne, hs]
    | none => rw [hf, hb] at ht; simp at ht

/-- Witness for C1 at a concrete in-progress environment and request. -/
theorem deploy_in_progress_no_mutation_witness :
    deploy envInProgress cfgFile [] [] [] =
      ⟨.error (.valueError "Stack is in progress"), [.describeStacks "mystack"]⟩ :=
  deploy_in_progress_no_mutation envInProgress cfgFile [] [] [] "CREATE_IN_PROGRESS"
    rfl (by decide) (Or.inl (by decide))

/-- C5: every `deploy` invocation performs at most one of the three stack
mutations: its trace's stack-level mutation subsequence is empty, a single
create, a single change-set execute, a single delete, or a delete followed
by a create — never an execute together with a create or delete, and never
two of the same. -/
theorem deploy_at_most_one_mutation (env : Env) (cfg : Config)
    (caps params tags : List String) :
    mutationsOf (deploy env cfg caps params tags).trace = [] ∨
    mutationsOf (deploy env cfg caps params tags).trace = [MutKind.create] ∨
    mutationsOf (deploy env cfg caps params tags).trace = [MutKind.execute] ∨
    mutationsOf (deploy env cfg caps params tags).trace = [MutKind.delete] ∨
    mutationsOf (deploy env cfg caps params tags).trace = [MutKind.delete, MutKind.create] := by
  unfold deploy
  cases hc : check_stack (env.checks 0) with
  | error e => left; simp [mutationsOf, mutKindOf]
  | ok st =>
    cases hf : cfg.aws_template_file with
    | some file =>
      by_cases h1 : st = "DOES_NOT_EXIST"
      · right; left
        simp [h1, mutationsOf_cons, mutKindOf, createStackCall_mut]
      · by_cases h2 : st ∈ in_progress_statuses
        · left; simp [if_neg h1, h2, mutationsOf, mutKindOf]
        · by_cases h3 : st ∈ failed_statuses ∨ st ∈ update_impossible_statuses
          · simp only [if_neg h1, if_neg h2, if_pos h3]
            rcases handleFailed_mut env cfg.aws_stack
                (createStackCall env cfg.aws_stack
                  (mkTemplateURL cfg.aws_bucket cfg.aws_folder file) caps params tags)
              with h | h
            · right; right; right; left; exact h
            · rw [h, createStackCall_mut]
              right; right; right; right; rfl
          · by_cases h4 : st ∈ completed_statuses
            · simp only [if_neg h1, if_neg h2, if_neg h3, if_pos h4]
              rw [finishUpdate_mut]
              rcases (tryFileUpdate_trace env cfg.aws_stack
                  (mkTemplateURL cfg.aws_bucket cfg.aws_folder file) caps params tags
                  cfg.timestamp 1).1 with h | h
              · left; exact h
              · right; right; left; exact h
            · left
              simp [if_neg h1, if_neg h2, if_neg h3, if_neg h4, mutationsOf, mutKindOf]
    | none =>
      cases hb : cfg.aws_template_body with
      | some body =>
        by_cases h1 : st = "DOES_NOT_EXIST"
        · left; simp [h1, createStackKeyError, mutationsOf, mutKindOf]
        · by_cases h2 : st ∈ in_progress_statuses
          · left; simp [if_neg h1, h2, mutationsOf, mutKindOf]
          · by_cases h3 : st ∈ failed_statuses
            · simp only [if_neg h1, if_neg h2, if_pos h3]
              rcases handleFailed_mut env cfg.aws_stack createStackKeyError with h | h
              · right; right; right; left; exact h
              · rw [h]
                right; right; right; left
                simp [createStackKeyError, mutationsOf, mutKindOf]
            · by_cases h4 : st ∈ completed_statuses
              · simp only [if_neg h1, if_neg h2, if_neg h3, if_pos h4]
                rw [finishUpdate_mut]
                rcases (tryBodyUpdate_trace env cfg.aws_stack body caps params tags
                    cfg.timestamp 1).1 with h | h
                · left; exact h
                · right; right; left; exact h
              · left
                simp [if_neg h1, if_neg h2, if_neg h3, if_neg h4, mutationsOf, mutKindOf]
      | none => left; simp [mutationsOf, mutKindOf]

/-- C9 (amended): `deploy` closes its client and deletes its session exactly
when the method body runs to its end without raising; every raising path and
the early no-changes return skip the cleanup.  The session-deletion step at
line 304 is in the trace iff the invocation ended with `DeployOk.done`. -/
theorem deploy_cleanup_iff_normal_completion (env : Env) (cfg : Config)
    (caps params tags : List String) :
    (Action.delSession ∈ (deploy env cfg caps params tags).trace ↔
      (deploy env cfg caps params tags).result = .ok .done) := by
  unfold deploy
  cases hc : check_stack (env.checks 0) with
  | error e => simp
  | ok st =>
    cases hf : cfg.aws_template_file with
    | some file =>
      by_cases h1 : st = "DOES_NOT_EXIST"
      · simp [h1, createStackCall_delSession]
      · by_cases h2 : st ∈ in_progress_statuses
        · simp [if_neg h1, h2]
        · by_cases h3 : st ∈ failed_statuses ∨ st ∈ update_impossible_statuses
          · simp only [if_neg h1, if_neg h2, if_pos h3]
            exact handleFailed_delSession env cfg.aws_stack _
              (createStackCall_delSession env cfg.aws_stack
                (mkTemplateURL cfg.aws_bucket cfg.aws_folder file) caps params tags)
          · by_cases h4 : st ∈ completed_statuses
            · simp only [if_neg h1, if_neg h2, if_neg h3, if_pos h4]
              exact finishUpdate_delSession cfg.aws_stack _
                (tryFileUpdate_trace env cfg.aws_stack
                  (mkTemplateURL cfg.aws_bucket cfg.aws_folder file) caps params tags
                  cfg.timestamp 1).2
            · simp [if_neg h1, if_neg h2, if_neg h3, if_neg h4]
    | none =>
      cases hb : cfg.aws_template_body with
      | some body =>
        by_cases h1 : st = "DOES_NOT_EXIST"
        · simp [h1, createStackKeyError]
        · by_cases h2 : st ∈ in_progress_statuses
          · simp [if_neg h1, h2]
          · by_cases h3 : st ∈ failed_statuses
            · simp only [if_neg h1, if_neg h2, if_pos h3]
              exact handleFailed_delSession env cfg.aws_stack _
                (by simp [createStackKeyError])
            · by_cases h4 : st ∈ completed_statuses
              · simp only [if_neg h1, if_neg h2, if_neg h3, if_pos h4]
                exact finishUpdate_delSession cfg.aws_stack _
                  (tryBodyUpdate_trace env cfg.aws_stack body caps params tags
                    cfg.timestamp 1).2
              · simp [if_neg h1, if_neg h2, if_neg h3, if_neg h4]
      | none => simp

/-- Witness for C9's amended statement: on the concrete no-op create run the
cleanup is present because the body completed. -/
theorem deploy_cleanup_iff_normal_completion_witness :
    Action.delSession ∈ (deploy baseEnv cfgFile [] [] []).trace :=
  (deploy_cleanup_iff_normal_completion baseEnv cfgFile [] [] []).mpr (by decide)

/-- C9 counterexample: on the in-progress error path `deploy` raises and
neither closes the client nor deletes the session, so the release does not
happen on every exit path. -/
theorem deploy_error_path_skips_cleanup :
    (deploy envInProgress cfgFile [] [] []).result =
      .error (.valueError "Stack is in progress") ∧
    Action.closeClient ∉ (deploy envInProgress cfgFile [] [] []).trace ∧
    Action.delSession ∉ (deploy envInProgress cfgFile [] [] []).trace := by
  refine ⟨?_, ?_, ?_⟩ <;> decide

/-- C2: on a nonexistent stack the template-file branch issues exactly one
create call with the assembled S3 URL, capabilities, parameters and tags
(first conjunct); but in the template-body branch the create call's
TemplateURL f-string reads the absent `aws_template_file` key, so `deploy`
raises `KeyError` and no create call carrying the body is ever issued
(second conjunct). -/
theorem deploy_create_paths :
    deploy baseEnv cfgFile [] [] [] =
      ⟨.ok .done,
       [.describeStacks "mystack", .createStack "mystack" urlFile [] [] [],
        .closeClient, .delSession]⟩ ∧
    deploy baseEnv cfgBody [] [] [] =
      ⟨.error (.keyError "aws_template_file"), [.describeStacks "mystack"]⟩ := by
  refine ⟨?_, ?_⟩ <;> decide

/-- C3: the template-file branch performs the documented
delete / wait / re-check / create sequence on a failed stack (first
conjunct); the template-body branch deletes and waits but then raises
`KeyError` instead of creating (second conjunct); and for
`ROLLBACK_COMPLETE`, which is update-impossible but not failed, the body
branch issues no delete at all and goes to the change-set path instead
(third and fourth conjuncts). -/
theorem deploy_failed_paths :
    deploy envFailedThenGone cfgFile [] [] [] =
      ⟨.ok .done,
       [.describeStacks "mystack", .deleteStack "mystack", .describeStacks "mystack",
        .closeClient, .delSessionWait, .describeStacks "mystack",
        .createStack "mystack" urlFile [] [] [], .closeClient, .delSession]⟩ ∧
    deploy envFailedThenGone cfgBody [] [] [] =
      ⟨.error (.keyError "aws_template_file"),
       [.describeStacks "mystack", .deleteStack "mystack", .describeStacks "mystack",
        .closeClient, .delSessionWait, .describeStacks "mystack"]⟩ ∧
    Action.deleteStack "mystack" ∉ (deploy envRollback cfgBody [] [] []).trace ∧
    Action.createChangeSetBody "mystack" "templatebody" [] [] [] "1700-change-set" ∈
      (deploy envRollback cfgBody [] [] []).trace := by
  refine ⟨?_, ?_, ?_, ?_⟩ <;> decide

/-- C4 counterexample: a template-body request on a completed stack whose
change set reports no differences — `deploy` never describes the change
set, never deletes it, issues no execute, and re-raises the waiter failure
instead of returning success. -/
theorem deploy_body_no_diff_counterexample :
    deploy envBodyNoDiff cfgBody [] [] [] =
      ⟨.error (.waiterError "Waiter ChangeSetCreateComplete failed: terminal failure state"),
       [.describeStacks "mystack",
        .createChangeSetBody "mystack" "templatebody" [] [] [] "1700-change-set",
        .waiterWait "change_set_create_complete" 10 30]⟩ := by
  decide

/-- C4 (amended): for template-file requests on a stack whose status is in
the completed table (and not in the update-impossible table, which the
branch order checks first), when the change-set describe reports FAILED
with the exact no-changes reason, `deploy` creates the change set, detects
the no-diff condition, deletes the change set, issues no execute call, and
returns success via the early return.  Template-body requests have no such
detection (see the counterexample). -/
theorem deploy_file_no_diff_skips_execute (env : Env) (cfg : Config)
    (caps params tags : List String) (s file csId : String)
    (hf : cfg.aws_template_file = some file)
    (hc : env.checks 0 = .status s)
    (hcomp : s ∈ completed_statuses)
    (hni : s ∉ update_impossible_statuses)
    (hcs : env.createChangeSetRes = .ok csId)
    (hdesc : env.describeChangeSetRes = .ok ("FAILED", noChangesMsg))
    (hdel : env.deleteChangeSetRes = .ok ()) :
    deploy env cfg caps params tags =
      ⟨.ok .noUpdates,
       [.describeStacks cfg.aws_stack,
        .createChangeSetURL cfg.aws_stack (mkTemplateURL cfg.aws_bucket cfg.aws_folder file)
          caps params tags ("ChangeSet" ++ cfg.timestamp),
        .describeChangeSet cfg.aws_stack ("ChangeSet" ++ cfg.timestamp),
        .deleteChangeSet cfg.aws_stack ("ChangeSet" ++ cfg.timestamp)]⟩ := by
  have h1 : s ≠ "DOES_NOT_EXIST" := completed_ne_dne s hcomp
  have h2 : s ∉ in_progress_statuses := completed_not_in_progress s hcomp
  have h3 : ¬(s ∈ failed_statuses ∨ s ∈ update_impossible_statuses) := by
    rintro (h | h)
    · exact completed_not_failed s hcomp h
    · exact hni h
  unfold deploy
  rw [hc]
  simp only [check_stack]
  rw [hf]
  simp only [if_neg h1, if_neg h2, if_neg h3, if_pos hcomp]
  unfold tryFileUpdate
  rw [hcs, hdesc, hdel]
  simp [finishUpdate]

/-- Witness for C4's amended statement at the concrete no-diff run. -/
theorem deploy_file_no_diff_skips_execute_witness :
    deploy envNoDiff cfgFile [] [] [] =
      ⟨.ok .noUpdates,
       [.describeStacks "mystack",
        .createChangeSetURL "mystack" (mkTemplateURL "bkt" "fld" "template.yaml")
          [] [] [] "ChangeSet1700",
        .describeChangeSet "mystack" "ChangeSet1700",
        .deleteChangeSet "mystack" "ChangeSet1700"]⟩ :=
  deploy_file_no_diff_skips_execute envNoDiff cfgFile [] [] [] "UPDATE_COMPLETE"
    "template.yaml" "csid" rfl rfl (by decide) (by decide) rfl rfl rfl

/-- C8 counterexample: `ROLLBACK_COMPLETE` sits in the completed, rollback
and update-impossible tables and in neither the failed nor in-progress
tables, so under the claimed priority (failed before rollback before
in-progress before completed before update-impossible) no branch may treat
it as update-impossible; yet the template-file branch of `deploy` routes it
to the delete-then-recreate handling, and the template-body branch
disagrees and routes it to the change-set path. -/
theorem classification_priority_counterexample :
    "ROLLBACK_COMPLETE" ∈ completed_statuses ∧
    "ROLLBACK_COMPLETE" ∈ rollback_statuses ∧
    "ROLLBACK_COMPLETE" ∈ update_impossible_statuses ∧
    "ROLLBACK_COMPLETE" ∉ failed_statuses ∧
    "ROLLBACK_COMPLETE" ∉ in_progress_statuses ∧
    Action.deleteStack "mystack" ∈ (deploy envRollback cfgFile [] [] []).trace ∧
    Action.deleteStack "mystack" ∉ (deploy envRollback cfgBody [] [] []).trace := by
  refine ⟨?_, ?_, ?_, ?_, ?_, ?_, ?_⟩ <;> decide

/-- C8 (amended): branching never consults the rollback or special-case
tables; the effective order is an exact does-not-exist match, then
in-progress, then failed-or-update-impossible (failed only, in the
template-body branch), then completed.  `ROLLBACK_COMPLETE` is the one
status in both the completed and update-impossible tables, and the two
template branches classify it differently: the file branch deletes and
recreates, the body branch updates through a change set. -/
theorem classification_effective_branching :
    (∀ s ∈ completed_statuses, s ∈ update_impossible_statuses → s = "ROLLBACK_COMPLETE") ∧
    deploy envRollback cfgFile [] [] [] =
      ⟨.ok .done,
       [.describeStacks "mystack", .deleteStack "mystack", .describeStacks "mystack",
        .closeClient, .delSessionWait, .describeStacks "mystack",
        .createStack "mystack" urlFile [] [] [], .closeClient, .delSession]⟩ ∧
    deploy envRollback cfgBody [] [] [] =
      ⟨.ok .done,
       [.describeStacks "mystack",
        .createChangeSetBody "mystack" "templatebody" [] [] [] "1700-change-set",
        .waiterWait "change_set_create_complete" 10 30,
        .executeChangeSet none "1700-change-set",
        .waiterWait "stack_update_complete" 10 30,
        .describeStacks "mystack", .closeClient, .delSession]⟩ := by
  refine ⟨?_, ?_, ?_⟩ <;> decide

/-- Witness for C8's amended statement: the overlap fact applied at the one
overlapping status. -/
theorem classification_effective_branching_witness :
    "ROLLBACK_COMPLETE" = "ROLLBACK_COMPLETE" :=
  classification_effective_branching.1 "ROLLBACK_COMPLETE" (by decide) (by decide)

theorem waitPoll_ok (env : Env) (stack : String) (timeout : Nat)
    (hok : ∀ n, (check_stack (env.checks n)).isOk = true)
    (status : String) (elapsed idx : Nat) :
    ∃ st2, (waitPoll env stack timeout status elapsed idx).1 = .ok st2 := by
  induction status, elapsed, idx using waitPoll.induct env stack timeout with
  | case1 status elapsed idx h e heq =>
    exfalso
    have hx := hok idx
    rw [heq] at hx
    simp [Except.isOk, Except.toBool] at hx
  | case2 status elapsed idx h s2 heq ih =>
    rw [waitPoll]
    simp only [dif_pos h, heq]
    exact ih
  | case3 status elapsed idx h =>
    rw [waitPoll]
    simp only [dif_neg h]
    exact ⟨status, rfl⟩

/-- C6: when every status describe succeeds, `deploy_wait` never raises —
it always delivers one of its terminal reports (does-not-exist, successful,
failed, timed-out) as a value; every sleep in its trace is the fixed
10-unit poll interval; and on a stack that stays in progress the whole
time, with timeout 30, it reports timed-out after three 10-unit sleeps
(three polls after the initial describe). -/
theorem deploy_wait_terminal_report (env : Env) (stack : String) (timeout idx : Nat)
    (hok : ∀ n, (check_stack (env.checks n)).isOk = true) :
    (∃ r, (deploy_wait env stack timeout idx).1 = .ok r) ∧
    (∀ n, Action.sleep n ∈ (deploy_wait env stack timeout idx).2.2 → n = 10) ∧
    ((∀ n, env.checks n = .status "CREATE_IN_PROGRESS") →
      deploy_wait env stack 30 0 =
        (.ok .timedOut, 4,
         [.describeStacks stack, .sleep 10, .describeStacks stack, .sleep 10,
          .describeStacks stack, .sleep 10, .describeStacks stack,
          .closeClient, .delSessionWait])) := by
  refine ⟨?_, ?_, ?_⟩
  · unfold deploy_wait
    cases hc : check_stack (env.checks idx) with
    | error e =>
      exfalso
      have hx := hok idx
      rw [hc] at hx
      simp [Except.isOk, Except.toBool] at hx
    | ok status =>
      by_cases hd : status = "DOES_NOT_EXIST"
      · simp [hd]
      · simp only [if_neg hd]
        rcases hw : waitPoll env stack timeout status 0 (idx + 1) with ⟨res, idx2, tr⟩
        obtain ⟨st2, hst⟩ := waitPoll_ok env stack timeout hok status 0 (idx + 1)
        rw [hw] at hst
        simp only at hst
        rw [hst]
        exact ⟨_, rfl⟩
  · intro n hm
    rcases deploy_wait_trace_mem env stack timeout idx _ hm with h | h | h | h
    · injection h
    · exact absurd h (by simp)
    · exact absurd h (by simp)
    · exact absurd h (by simp)
  · intro hconst
    simp +decide [deploy_wait, waitPoll, check_stack, hconst]

/-- Witness for C6: the concrete always-in-progress run with timeout 30. -/
theorem deploy_wait_terminal_report_witness :
    (deploy_wait envInProgress "mystack" 30 0).1 = .ok .timedOut := by
  have h :=
    (deploy_wait_terminal_report envInProgress "mystack" 30 0 (fun n => rfl)).2.2 (fun n => rfl)
  rw [h]

/-- C7 (amended): `get_output` raises the "not in a valid state" error after
one describe unless the status is in the completed table; on a completed
stack it issues a second describe for the outputs, returns the first value
whose key matches, and raises the "not found" error when no key matches.
There is no retry, but the success path performs two describe calls, not
one. -/
theorem get_output_status_and_lookup (env : Env) (cfg : Config) (name s : String)
    (hc : env.checks 0 = .status s) :
    (s ∉ completed_statuses →
      get_output env cfg name =
        (.error (.valueError ("Stack is not in a valid state: " ++ s)),
         [.describeStacks cfg.aws_stack, .closeClient, .delSession])) ∧
    (s ∈ completed_statuses →
      get_output env cfg name =
        ((match (env.outputs.find? (fun p => p.1 == name)).map (fun p => p.2) with
          | none => .error (.valueError ("Output " ++ name ++ " not found"))
          | some v => .ok v),
         [.describeStacks cfg.aws_stack, .describeStacks cfg.aws_stack,
          .closeClient, .delSession])) := by
  constructor
  · intro hs
    unfold get_output
    rw [hc]
    simp only [check_stack]
    rw [if_pos (Or.inr (Or.inl hs))]
  · intro hs
    have hcond : ¬(s = "DOES_NOT_EXIST" ∨ s ∉ completed_statuses ∨ s ∈ failed_statuses) := by
      rintro (h | h | h)
      · exact completed_ne_dne s hs h
      · exact h hs
      · exact completed_not_failed s hs h
    unfold get_output
    rw [hc]
    simp only [check_stack]
    rw [if_neg hcond]
    cases hv : (env.outputs.find? (fun p => p.1 == name)).map (fun p => p.2) <;> simp [hv]

/-- Witness for C7's amended statement: the spec's own example, a completed
stack with outputs `[("Url", "https://x")]`. -/
theorem get_output_status_and_lookup_witness :
    get_output envOutputs cfgFile "Url" =
      (.ok "https://x",
       [.describeStacks "mystack", .describeStacks "mystack",
        .closeClient, .delSession]) ∧
    get_output envOutputs cfgFile "Missing" =
      (.error (.valueError "Output Missing not found"),
       [.describeStacks "mystack", .describeStacks "mystack",
        .closeClient, .delSession]) := by
  constructor
  · have h :=
      (get_output_status_and_lookup envOutputs cfgFile "Url" "CREATE_COMPLETE" rfl).2
        (by decide)
    rw [h]
    rfl
  · have h :=
      (get_output_status_and_lookup envOutputs cfgFile "Missing" "CREATE_COMPLETE" rfl).2
        (by decide)
    rw [h]
    rfl

/-- C7 counterexample: the success path of `get_output` performs two
synchronous describe calls (the status check and the outputs fetch), not a
single one. -/
theorem get_output_two_describes :
    get_output envOutputs cfgFile "Url" =
      (.ok "https://x",
       [.describeStacks "mystack", .describeStacks "mystack",
        .closeClient, .delSession]) ∧
    describeCount (get_output envOutputs cfgFile "Url").2 = 2 := by
  refine ⟨?_, ?_⟩ <;> decide

/-- C10: `_object_to_dict` terminates on every object graph, cyclic ones
included, because recursion stops above nesting level 10: any value met at
a level above 10 is returned unchanged, and on the cyclic one-element list
heap the traversal entered at level 10 recurses exactly once before the cap
returns the raw reference. -/
theorem object_to_dict_level_cap :
    (∀ (heap : Nat → PyNode) (r level : Nat), 10 < level →
      object_to_dict heap r level = .raw r) ∧
    object_to_dict cycHeap 0 10 = .list [.raw 0] := by
  constructor
  · intro heap r level h
    rw [object_to_dict]
    simp [h]
  · simp +decide [object_to_dict, otdItems, cycHeap]

/-- Witness for C10: at level 11 even the cyclic heap value is returned
unchanged. -/
theorem object_to_dict_level_cap_witness :
    object_to_dict cycHeap 0 11 = .raw 0 :=
  object_to_dict_level_cap.1 cycHeap 0 11 (by omega)

end TlalocCommons
